import Mathlib

/-!
# Shallow embedding of `todo-mcp-server`

This file embeds the data model and the operations of the repository
(`models.py`, `routes/todo.py`, `main.py`) and proves properties stated
about them.

Modelling conventions:

* A `datetime` creation timestamp is abstracted as a `Nat` drawn from a
  monotone clock held in the state; `isoformat` is abstracted as its
  decimal rendering (an injective `Nat → String`).
* Pydantic field values are embedded at their declared types
  (`str → String`, `Optional[str] → Option String`, `bool → Bool`,
  `int → Int`).  Update payloads distinguish an absent field from a field
  explicitly set (pydantic `exclude_unset`); set-to-`null` is modelled for
  the fields whose declared type admits `None` in the record
  (`description`); payloads that would put `None` into the non-optional
  fields `title`/`completed` fall outside the embedding.
* Module-level Python state (`todos_db`, `next_id` in `routes/todo.py`,
  and the separate `next_id` binding that `main.py` obtains via
  `from routes.todo import todos_db, next_id`) is gathered into an
  explicit state record `St`.  Note that in Python, the statement
  `from routes.todo import next_id` copies the *value* of the integer
  into module `main`,
  and the `global next_id` statement inside the tool `create_todo`
  rebinds `main`'s own module variable; the list object `todos_db` on the
  other hand is shared by reference.  The embedding therefore carries one
  shared list and two independent counters, exactly as the source does.
-/

/-- `models.Todo`: one task record. `created_at` is the abstract clock value
at creation time. -/
structure Todo where
  id : Int
  title : String
  description : Option String
  completed : Bool
  created_at : Nat
deriving Repr, DecidableEq

/-- The module-level mutable state of the process: the shared list
`todos_db`, the counter `next_id` of module `routes.todo` (used by the REST
handlers), the counter `next_id` of module `main` (used by the MCP tool
`create_todo`, a distinct variable after `from routes.todo import next_id`),
and the abstract clock standing for `datetime.now()`. -/
structure St where
  todos_db : List Todo
  routes_next_id : Int
  main_next_id : Int
  clock : Nat
deriving Repr, DecidableEq

/-- The state right after process start: empty list, both `next_id`
bindings equal to `1`. -/
def initSt : St := { todos_db := [], routes_next_id := 1, main_next_id := 1, clock := 0 }

/-- `models.TodoCreate`: request body of `POST /todos/`. -/
structure TodoCreate where
  title : String
  description : Option String
deriving Repr, DecidableEq

/-- `models.TodoUpdate` together with pydantic's set/unset bookkeeping
(`dict(exclude_unset=True)`): an outer `none` means the field was absent
from the request.  For `description` (declared `Optional[str]`) a present
field can carry `null` (`some none`) or a string (`some (some s)`). -/
structure TodoUpdate where
  title : Option String
  description : Option (Option String)
  completed : Option Bool
deriving Repr, DecidableEq

/-- The linear scan `for todo in todos_db: if todo.id == id: return todo`
shared by both `get` handlers. -/
def findTodo : List Todo → Int → Option Todo
  | [], _ => none
  | t :: ts, i => if t.id = i then some t else findTodo ts i

/-- `todo.copy(update=update_data)` where `update_data` is the dict of set
fields: set fields overwrite, unset fields keep their prior value;
`id` and `created_at` are never in `update_data`. -/
def applyUpdate (todo : Todo) (u : TodoUpdate) : Todo :=
  { todo with
    title := u.title.getD todo.title
    description := u.description.getD todo.description
    completed := u.completed.getD todo.completed }

/-- The update loop shared by both `update` handlers:
`for i, todo in enumerate(todos_db): if todo.id == id: … todos_db[i] = updated`.
Returns the updated record and the new list, or `none` when no record
matches. -/
def replaceTodo : List Todo → Int → TodoUpdate → Option (Todo × List Todo)
  | [], _, _ => none
  | t :: rest, i, u =>
    if t.id = i then
      some (applyUpdate t u, applyUpdate t u :: rest)
    else
      match replaceTodo rest i u with
      | none => none
      | some (r, rest2) => some (r, t :: rest2)

/-- The delete loop shared by both `delete` handlers:
`for i, todo in enumerate(todos_db): if todo.id == id: todos_db.pop(i)`.
Returns the removed record and the remaining list, or `none`. -/
def removeTodo : List Todo → Int → Option (Todo × List Todo)
  | [], _ => none
  | t :: rest, i =>
    if t.id = i then
      some (t, rest)
    else
      match removeTodo rest i with
      | none => none
      | some (d, rest2) => some (d, t :: rest2)

/-! ## REST surface (`routes/todo.py`) -/

/-- `POST /todos/` (`routes.todo.create_todo`): builds a `Todo` with
`id = next_id`, `completed = False`, `created_at = datetime.now()`,
appends it and increments `routes.todo.next_id`. -/
def rest_create_todo (s : St) (todo : TodoCreate) : Todo × St :=
  let new_todo : Todo :=
    { id := s.routes_next_id
      title := todo.title
      description := todo.description
      completed := false
      created_at := s.clock }
  (new_todo,
   { s with
      todos_db := s.todos_db ++ [new_todo]
      routes_next_id := s.routes_next_id + 1
      clock := s.clock + 1 })

/-- `GET /todos/` (`routes.todo.get_all_todos`). -/
def rest_get_all_todos (s : St) : List Todo := s.todos_db

/-- `GET /todos/{todo_id}` (`routes.todo.get_todo`); `none` is the
`HTTPException(404, "Todo not found")` branch. -/
def rest_get_todo (s : St) (todo_id : Int) : Option Todo :=
  findTodo s.todos_db todo_id

/-- `PUT /todos/{todo_id}` (`routes.todo.update_todo`):
`update_data = todo_update.dict(exclude_unset=True)`;
`updated_todo = todo.copy(update=update_data)`; `todos_db[i] = updated_todo`.
`none` in the first component is the 404 branch, in which the state is
untouched. -/
def rest_update_todo (s : St) (todo_id : Int) (todo_update : TodoUpdate) :
    Option Todo × St :=
  match replaceTodo s.todos_db todo_id todo_update with
  | none => (none, s)
  | some (r, db) => (some r, { s with todos_db := db })

/-- `DELETE /todos/{todo_id}` (`routes.todo.delete_todo`): pops the first
matching record and answers
`{"message": "Todo '<title>' deleted successfully"}`; `none` is the 404
branch. -/
def rest_delete_todo (s : St) (todo_id : Int) : Option String × St :=
  match removeTodo s.todos_db todo_id with
  | none => (none, s)
  | some (d, db) =>
    (some ("Todo '" ++ d.title ++ "' deleted successfully"),
     { s with todos_db := db })

/-! ## MCP tool functions (`main.py`) -/

/-- The MCP tool `create_todo(title, description=None)` in `main.py`:
identical to the REST create except that the `global next_id` it
increments is `main`'s own binding (`main_next_id`), not the one the REST
handler uses. -/
def mcp_create_todo (s : St) (title : String) (description : Option String) :
    Todo × St :=
  let new_todo : Todo :=
    { id := s.main_next_id
      title := title
      description := description
      completed := false
      created_at := s.clock }
  (new_todo,
   { s with
      todos_db := s.todos_db ++ [new_todo]
      main_next_id := s.main_next_id + 1
      clock := s.clock + 1 })

/-- The MCP tool `list_todos()`. -/
def mcp_list_todos (s : St) : List Todo := s.todos_db

/-- The MCP tool `get_todo(id)`; the `error` case is
`raise ValueError(f"Todo with ID {id} not found")`. -/
def mcp_get_todo (s : St) (id : Int) : Except String Todo :=
  match findTodo s.todos_db id with
  | some t => .ok t
  | none => .error ("Todo with ID " ++ toString id ++ " not found")

/-- The MCP tool `update_todo(id, title=None, description=None,
completed=None)`: builds `update_data` from the parameters that are not
`None` (`if title is not None: …`), so a parameter bound to `None` —
whether the caller omitted it or explicitly sent `null` — is treated as
absent.  In terms of `TodoUpdate` the dict it builds is
`⟨title, description.map some, completed⟩`. -/
def mcp_update_todo (s : St) (id : Int) (title : Option String)
    (description : Option String) (completed : Option Bool) :
    Except String Todo × St :=
  match replaceTodo s.todos_db id
      { title := title, description := description.map some, completed := completed } with
  | none => (.error ("Todo with ID " ++ toString id ++ " not found"), s)
  | some (r, db) => (.ok r, { s with todos_db := db })

/-- The MCP tool `delete_todo(id)`. -/
def mcp_delete_todo (s : St) (id : Int) : Except String String × St :=
  match removeTodo s.todos_db id with
  | none => (.error ("Todo with ID " ++ toString id ++ " not found"), s)
  | some (d, db) =>
    (.ok ("Todo '" ++ d.title ++ "' deleted successfully"),
     { s with todos_db := db })

/-! ## The `todo_summary` resource (`main.py`) -/

/-- `sum(1 for todo in todos_db if todo.completed)`. -/
def countCompleted : List Todo → Nat
  | [] => 0
  | t :: ts => (if t.completed then 1 else 0) + countCompleted ts

/-- The four fields of the JSON object the resource serialises. -/
structure Summary where
  total_todos : Nat
  completed_todos : Nat
  pending_todos : Nat
  completion_rate : Rat
deriving Repr, DecidableEq

/-- The MCP resource `todo_summary()`: the object passed to `json.dumps`.
Python computes `completion_rate` in floating point; the embedding computes
the same quotient exactly in `ℚ`. -/
def todo_summary (s : St) : Summary :=
  let total_todos := s.todos_db.length
  let completed_todos := countCompleted s.todos_db
  { total_todos := total_todos
    completed_todos := completed_todos
    pending_todos := total_todos - completed_todos
    completion_rate :=
      if total_todos > 0 then (completed_todos : Rat) / (total_todos : Rat) * 100 else 0 }

/-! ## The MCP dispatcher (`MCPServer` in `main.py`) -/

/-- JSON values, as carried in tool argument bags and results. -/
inductive Val where
  | null
  | bool (b : Bool)
  | int (n : Int)
  | str (s : String)
  | rat (q : Rat)
  | arr (xs : List Val)
  | obj (fields : List (String × Val))
deriving Repr

/-- `datetime.isoformat()` on the abstract clock: some injective rendering
of the timestamp. -/
def isoformat (n : Nat) : String := toString n

/-- The result dict each tool builds from a `Todo`
(`{"id": …, "title": …, "description": …, "completed": …,
"created_at": todo.created_at.isoformat()}`). -/
def todoToVal (t : Todo) : Val :=
  .obj [("id", .int t.id),
        ("title", .str t.title),
        ("description", (t.description.map Val.str).getD Val.null),
        ("completed", .bool t.completed),
        ("created_at", .str (isoformat t.created_at))]

/-- One parameter of a registered function's signature, as
`inspect.signature` reports it: its name, the declared type's name in the
field `ann` (`none` = `inspect.Parameter.empty`, no type given), and its
default value (`none` = no default). -/
structure Param where
  name : String
  ann : Option String
  default : Option Val
deriving Repr

/-- One entry of the derived parameter schema
(`{"type": …, "required": …, "default": …}`; the `default` key is present
only when the parameter has one). -/
structure ParamInfo where
  type : String
  required : Bool
  default : Option Val
deriving Repr

/-- `MCPServer._get_function_params`: skips `self`, takes the annotation's
`__name__` falling back to `"str"`, marks the parameter required exactly
when it has no default, and records the default when present. -/
def get_function_params (sig : List Param) : List (String × ParamInfo) :=
  (sig.filter (fun p => p.name ≠ "self")).map fun p =>
    (p.name,
     { type := p.ann.getD "str"
       required := p.default.isNone
       default := p.default })

/-- Signature of `create_todo(title: str, description: str = None)`. -/
def create_todo_sig : List Param :=
  [{ name := "title", ann := some "str", default := none },
   { name := "description", ann := some "str", default := some .null }]

/-- Signature of `list_todos()`. -/
def list_todos_sig : List Param := []

/-- Signature of `get_todo(id: int)`. -/
def get_todo_sig : List Param :=
  [{ name := "id", ann := some "int", default := none }]

/-- Signature of `update_todo(id: int, title: str = None,
description: str = None, completed: bool = None)`. -/
def update_todo_sig : List Param :=
  [{ name := "id", ann := some "int", default := none },
   { name := "title", ann := some "str", default := some .null },
   { name := "description", ann := some "str", default := some .null },
   { name := "completed", ann := some "bool", default := some .null }]

/-- Signature of `delete_todo(id: int)`. -/
def delete_todo_sig : List Param :=
  [{ name := "id", ann := some "int", default := none }]

/-- Keyword-argument spreading `f(**args)` against a signature: a
`TypeError` for an argument name that is no parameter, a `TypeError` for a
parameter without default that no argument supplies, and otherwise an
environment binding every parameter to the supplied argument or to its
default. -/
def bindArgs (fname : String) (sig : List Param) (args : List (String × Val)) :
    Except String (List (String × Val)) :=
  match args.find? (fun a => (sig.find? (fun p => p.name = a.1)).isNone) with
  | some a =>
    .error (fname ++ "() got an unexpected keyword argument '" ++ a.1 ++ "'")
  | none =>
    match sig.find? (fun p => p.default.isNone && (args.find? (fun a => a.1 = p.name)).isNone) with
    | some p =>
      .error (fname ++ "() missing 1 required positional argument: '" ++ p.name ++ "'")
    | none =>
      .ok (sig.map fun p =>
        (p.name,
         match args.find? (fun a => a.1 = p.name) with
         | some a => a.2
         | none => p.default.getD .null))

/-- Looks a bound parameter up in the environment produced by `bindArgs`. -/
def envGet (env : List (String × Val)) (name : String) : Val :=
  ((env.find? (fun a => a.1 = name)).map Prod.snd).getD .null

/-- Decodes a `str` parameter value. -/
def getStr : Val → Except String String
  | .str s => .ok s
  | _ => .error "validation error: str expected"

/-- Decodes a `str = None` parameter value (`null` stands for `None`). -/
def getOptStr : Val → Except String (Option String)
  | .null => .ok none
  | .str s => .ok (some s)
  | _ => .error "validation error: str or None expected"

/-- Decodes an `int` parameter value. -/
def getInt : Val → Except String Int
  | .int n => .ok n
  | _ => .error "validation error: int expected"

/-- Decodes a `bool = None` parameter value. -/
def getOptBool : Val → Except String (Option Bool)
  | .null => .ok none
  | .bool b => .ok (some b)
  | _ => .error "validation error: bool or None expected"

/-- A registered tool operation: consumes the raw argument bag and the
process state, produces a result value and new state or an error message. -/
def ToolOp : Type := List (String × Val) → St → Except String (Val × St)

/-- Body of the tool `create_todo` once its parameters are bound. -/
def create_todo_body (env : List (String × Val)) (s : St) :
    Except String (Val × St) := do
  let title ← getStr (envGet env "title")
  let description ← getOptStr (envGet env "description")
  let (t, s2) := mcp_create_todo s title description
  .ok (todoToVal t, s2)

/-- Body of the tool `list_todos`. -/
def list_todos_body (_env : List (String × Val)) (s : St) :
    Except String (Val × St) :=
  .ok (.arr ((mcp_list_todos s).map todoToVal), s)

/-- Body of the tool `get_todo`. -/
def get_todo_body (env : List (String × Val)) (s : St) :
    Except String (Val × St) := do
  let id ← getInt (envGet env "id")
  match mcp_get_todo s id with
  | .ok t => .ok (todoToVal t, s)
  | .error e => .error e

/-- Body of the tool `update_todo`. -/
def update_todo_body (env : List (String × Val)) (s : St) :
    Except String (Val × St) := do
  let id ← getInt (envGet env "id")
  let title ← getOptStr (envGet env "title")
  let description ← getOptStr (envGet env "description")
  let completed ← getOptBool (envGet env "completed")
  match mcp_update_todo s id title description completed with
  | (.ok t, s2) => .ok (todoToVal t, s2)
  | (.error e, _) => .error e

/-- Body of the tool `delete_todo`. -/
def delete_todo_body (env : List (String × Val)) (s : St) :
    Except String (Val × St) := do
  let id ← getInt (envGet env "id")
  match mcp_delete_todo s id with
  | (.ok msg, s2) => .ok (.obj [("message", .str msg)], s2)
  | (.error e, _) => .error e

/-- A registered Python function as the dispatcher calls it:
`self.tools[tool_name]["function"](**args)` — spread the argument bag
against the signature, then run the body. -/
def mkTool (fname : String) (sig : List Param)
    (body : List (String × Val) → St → Except String (Val × St)) : ToolOp :=
  fun args s => do
    let env ← bindArgs fname sig args
    body env s

/-- The `self.tools` registry of the `mcp` server, in registration order. -/
def mcp_tools : List (String × ToolOp) :=
  [("create_todo", mkTool "create_todo" create_todo_sig create_todo_body),
   ("list_todos", mkTool "list_todos" list_todos_sig list_todos_body),
   ("get_todo", mkTool "get_todo" get_todo_sig get_todo_body),
   ("update_todo", mkTool "update_todo" update_todo_sig update_todo_body),
   ("delete_todo", mkTool "delete_todo" delete_todo_sig delete_todo_body)]

/-- The derived parameter schemas of the registry, keyed like
`self.tools` (`"parameters": self._get_function_params(f)`). -/
def mcp_tool_params : List (String × List (String × ParamInfo)) :=
  [("create_todo", get_function_params create_todo_sig),
   ("list_todos", get_function_params list_todos_sig),
   ("get_todo", get_function_params get_todo_sig),
   ("update_todo", get_function_params update_todo_sig),
   ("delete_todo", get_function_params delete_todo_sig)]

/-- The three possible HTTP outcomes of `POST /tools/{tool_name}`:
`HTTPException(404)`, `HTTPException(500)`, or `{"result": …}`. -/
inductive ToolResponse where
  | notFound (detail : String)
  | invocationError (detail : String)
  | ok (result : Val)
deriving Repr

/-- `tool_name in self.tools` / `self.tools[tool_name]`. -/
def lookupTool (tools : List (String × ToolOp)) (name : String) : Option ToolOp :=
  ((tools.find? (fun t => t.1 = name)).map Prod.snd)

/-- The dispatcher endpoint `call_tool` in `MCPServer.as_fastapi`:
404 when the name is not registered; otherwise run the stored function on
the spread arguments, catching any exception into a 500 whose detail is
`str(e)`, and wrapping a successful value as `{"result": result}`. -/
def call_tool (tools : List (String × ToolOp)) (tool_name : String)
    (args : List (String × Val)) (s : St) : ToolResponse × St :=
  match lookupTool tools tool_name with
  | none => (.notFound ("Tool " ++ tool_name ++ " not found"), s)
  | some op =>
    match op args s with
    | .error e => (.invocationError e, s)
    | .ok (v, s2) => (.ok v, s2)

/-! ## Lemmas about the scan loops -/

theorem findTodo_eq_none {l : List Todo} {i : Int}
    (h : ∀ x ∈ l, x.id ≠ i) : findTodo l i = none := by
  induction l with
  | nil => rfl
  | cons t ts ih =>
    simp only [findTodo]
    rw [if_neg (h t (List.mem_cons_self t ts))]
    exact ih fun x hx => h x (List.mem_cons_of_mem t hx)

theorem findTodo_first_match {pre : List Todo} {t : Todo} {post : List Todo}
    (h : ∀ x ∈ pre, x.id ≠ t.id) :
    findTodo (pre ++ t :: post) t.id = some t := by
  induction pre with
  | nil => simp [findTodo]
  | cons p ps ih =>
    simp only [List.cons_append, findTodo]
    rw [if_neg (h p (List.mem_cons_self p ps))]
    exact ih fun x hx => h x (List.mem_cons_of_mem p hx)

theorem replaceTodo_eq_none {l : List Todo} {i : Int} (u : TodoUpdate)
    (h : ∀ x ∈ l, x.id ≠ i) : replaceTodo l i u = none := by
  induction l with
  | nil => rfl
  | cons t ts ih =>
    simp only [replaceTodo]
    rw [if_neg (h t (List.mem_cons_self t ts))]
    rw [ih fun x hx => h x (List.mem_cons_of_mem t hx)]

theorem replaceTodo_first_match {pre : List Todo} {t : Todo} {post : List Todo}
    (u : TodoUpdate) (h : ∀ x ∈ pre, x.id ≠ t.id) :
    replaceTodo (pre ++ t :: post) t.id u =
      some (applyUpdate t u, pre ++ applyUpdate t u :: post) := by
  induction pre with
  | nil => simp [replaceTodo]
  | cons p ps ih =>
    simp only [List.cons_append, replaceTodo, List.append_eq]
    rw [if_neg (h p (List.mem_cons_self p ps))]
    rw [ih fun x hx => h x (List.mem_cons_of_mem p hx)]

theorem removeTodo_eq_none {l : List Todo} {i : Int}
    (h : ∀ x ∈ l, x.id ≠ i) : removeTodo l i = none := by
  induction l with
  | nil => rfl
  | cons t ts ih =>
    simp only [removeTodo]
    rw [if_neg (h t (List.mem_cons_self t ts))]
    rw [ih fun x hx => h x (List.mem_cons_of_mem t hx)]

theorem removeTodo_first_match {pre : List Todo} {t : Todo} {post : List Todo}
    (h : ∀ x ∈ pre, x.id ≠ t.id) :
    removeTodo (pre ++ t :: post) t.id = some (t, pre ++ post) := by
  induction pre with
  | nil => simp [removeTodo]
  | cons p ps ih =>
    simp only [List.cons_append, removeTodo, List.append_eq]
    rw [if_neg (h p (List.mem_cons_self p ps))]
    rw [ih fun x hx => h x (List.mem_cons_of_mem p hx)]

theorem applyUpdate_empty (t : Todo) :
    applyUpdate t { title := none, description := none, completed := none } = t := rfl

theorem countCompleted_eq_filter_length (l : List Todo) :
    countCompleted l = (l.filter fun t => t.completed).length := by
  induction l with
  | nil => rfl
  | cons t ts ih =>
    simp only [countCompleted, List.filter]
    cases h : t.completed <;> simp [h, ih, Nat.add_comm]

/-! ## Claims -/

/-- The state reached from process start by one REST create (`"buy milk"`)
followed by one MCP-tool create (`"buy eggs"`): the run the spec's
end-to-end example performs. -/
def dupSt : St :=
  (mcp_create_todo (rest_create_todo initSt ⟨"buy milk", none⟩).2 "buy eggs" none).2

/-- C1: the claim says each assigned id is strictly greater than every
previously assigned id, with one counter shared by the REST and the tool
surface.  The code instead keeps two counters: `from routes.todo import
next_id` copies the value `1` into `main`, and the tool's `global next_id`
increments `main`'s copy.  Creating via REST and then via the tool assigns
id `1` twice: the second id is not greater than the first, and the store
ends up with a duplicated id. -/
theorem C1_counter_not_shared :
    (rest_create_todo initSt ⟨"buy milk", none⟩).1.id = 1 ∧
    (mcp_create_todo (rest_create_todo initSt ⟨"buy milk", none⟩).2 "buy eggs" none).1.id = 1 ∧
    ¬ ((rest_create_todo initSt ⟨"buy milk", none⟩).1.id <
        (mcp_create_todo (rest_create_todo initSt ⟨"buy milk", none⟩).2 "buy eggs" none).1.id) ∧
    dupSt.todos_db.map Todo.id = [1, 1] := by
  refine ⟨rfl, rfl, by decide, rfl⟩

/-- C3: `call_tool` answers 404 (with detail `"Tool <name> not found"`)
exactly when the name is not in the tools registry; otherwise it runs the
stored operation on the spread arguments, turns any raised error into a
500 whose detail is the error's own message, and wraps a successful value
as `{"result": …}`. -/
theorem C3_call_tool_contract (tools : List (String × ToolOp))
    (name : String) (args : List (String × Val)) (s : St) :
    (lookupTool tools name = none →
      call_tool tools name args s = (.notFound ("Tool " ++ name ++ " not found"), s)) ∧
    (∀ d, (call_tool tools name args s).1 = .notFound d → lookupTool tools name = none) ∧
    (∀ op, lookupTool tools name = some op →
      (∀ e, op args s = .error e →
        call_tool tools name args s = (.invocationError e, s)) ∧
      (∀ v s2, op args s = .ok (v, s2) →
        call_tool tools name args s = (.ok v, s2))) := by
  refine ⟨?_, ?_, ?_⟩
  · intro h
    simp [call_tool, h]
  · intro d hd
    cases hl : lookupTool tools name with
    | none => rfl
    | some op =>
      simp only [call_tool, hl] at hd
      cases hop : op args s with
      | error e => rw [hop] at hd; simp at hd
      | ok p => obtain ⟨v, s2⟩ := p; rw [hop] at hd; simp at hd
  · intro op hop
    constructor
    · intro e he
      simp [call_tool, hop, he]
    · intro v s2 hv
      simp [call_tool, hop, hv]

/-- Witness for C3 at a concrete input: invoking the unregistered name
`"nope"` on the real registry answers 404. -/
theorem C3_call_tool_contract_witness :
    call_tool mcp_tools "nope" [] initSt = (.notFound "Tool nope not found", initSt) :=
  (C3_call_tool_contract mcp_tools "nope" [] initSt).1 rfl

/-- C4: the derived parameter schema records, for every declared parameter
(`self` aside), the annotation's type name with `"str"` as the fallback,
`required = true` exactly when the parameter has no default, and the
default value when one exists; for the registered
`update_todo(id, title=None, description=None, completed=None)` that gives
`id` required with no default and the other three optional with default
`None`. -/
theorem C4_parameter_schema (sig : List Param) (p : Param)
    (hp : p ∈ sig) (hself : p.name ≠ "self") :
    ((p.name,
      ({ type := p.ann.getD "str", required := p.default.isNone,
         default := p.default } : ParamInfo)) ∈ get_function_params sig) ∧
    get_function_params update_todo_sig =
      [("id", { type := "int", required := true, default := none }),
       ("title", { type := "str", required := false, default := some .null }),
       ("description", { type := "str", required := false, default := some .null }),
       ("completed", { type := "bool", required := false, default := some .null })] := by
  constructor
  · exact List.mem_map_of_mem _ (List.mem_filter.2 ⟨hp, by simpa using hself⟩)
  · rfl

/-- Witness for C4 at a concrete input: `id` in `update_todo`'s schema is
required, typed `int`, with no default. -/
theorem C4_parameter_schema_witness :
    ("id", ({ type := "int", required := true, default := none } : ParamInfo)) ∈
      get_function_params update_todo_sig :=
  (C4_parameter_schema update_todo_sig
    { name := "id", ann := some "int", default := none }
    (List.mem_cons_self _ _) (by decide)).1

/-- C5: `todo_summary` reports `total_todos` = number of records,
`completed_todos` = number of completed records, `pending_todos` their
difference, and `completion_rate` = 0 on an empty store and
`completed / total * 100` otherwise. -/
theorem C5_todo_summary_fields (s : St) :
    (todo_summary s).total_todos = s.todos_db.length ∧
    (todo_summary s).completed_todos = (s.todos_db.filter fun t => t.completed).length ∧
    (todo_summary s).pending_todos =
      s.todos_db.length - (s.todos_db.filter fun t => t.completed).length ∧
    (s.todos_db.length = 0 → (todo_summary s).completion_rate = 0) ∧
    (0 < s.todos_db.length →
      (todo_summary s).completion_rate =
        ((s.todos_db.filter fun t => t.completed).length : Rat) /
          (s.todos_db.length : Rat) * 100) := by
  refine ⟨rfl, countCompleted_eq_filter_length _, ?_, ?_, ?_⟩
  · simp [todo_summary, countCompleted_eq_filter_length]
  · intro h
    simp [todo_summary, h]
  · intro h
    simp only [todo_summary, countCompleted_eq_filter_length]
    rw [if_pos h]

/-- Witness for C5 at concrete inputs: three tasks, one completed, give a
completion rate of 100/3 (≈ 33.33); an empty store gives rate 0. -/
theorem C5_todo_summary_fields_witness :
    (todo_summary
      { todos_db := [⟨1, "a", none, true, 0⟩, ⟨2, "b", none, false, 1⟩, ⟨3, "c", none, false, 2⟩],
        routes_next_id := 4, main_next_id := 1, clock := 3 }).completion_rate = 100 / 3 ∧
    (todo_summary initSt).completion_rate = 0 := by
  constructor
  · have h := (C5_todo_summary_fields
      ⟨[⟨1, "a", none, true, 0⟩, ⟨2, "b", none, false, 1⟩, ⟨3, "c", none, false, 2⟩],
        4, 1, 3⟩).2.2.2.2 (by decide)
    rw [h]
    show ((1 : Nat) : Rat) / ((3 : Nat) : Rat) * 100 = 100 / 3
    norm_num
  · exact (C5_todo_summary_fields initSt).2.2.2.1 rfl

/-! ## Characterisation of update and delete on found / absent ids -/

theorem rest_update_found (s : St) (pre : List Todo) (t : Todo) (post : List Todo)
    (u : TodoUpdate) (hdb : s.todos_db = pre ++ t :: post)
    (hfresh : ∀ x ∈ pre, x.id ≠ t.id) :
    rest_update_todo s t.id u =
      (some (applyUpdate t u), { s with todos_db := pre ++ applyUpdate t u :: post }) := by
  unfold rest_update_todo
  rw [hdb, replaceTodo_first_match u hfresh]

theorem mcp_update_found (s : St) (pre : List Todo) (t : Todo) (post : List Todo)
    (title descr : Option String) (compl : Option Bool)
    (hdb : s.todos_db = pre ++ t :: post)
    (hfresh : ∀ x ∈ pre, x.id ≠ t.id) :
    mcp_update_todo s t.id title descr compl =
      (.ok (applyUpdate t ⟨title, descr.map some, compl⟩),
       { s with todos_db := pre ++ applyUpdate t ⟨title, descr.map some, compl⟩ :: post }) := by
  unfold mcp_update_todo
  rw [hdb, replaceTodo_first_match ⟨title, descr.map some, compl⟩ hfresh]

theorem rest_delete_found (s : St) (pre : List Todo) (t : Todo) (post : List Todo)
    (hdb : s.todos_db = pre ++ t :: post) (hfresh : ∀ x ∈ pre, x.id ≠ t.id) :
    rest_delete_todo s t.id =
      (some ("Todo '" ++ t.title ++ "' deleted successfully"),
       { s with todos_db := pre ++ post }) := by
  unfold rest_delete_todo
  rw [hdb, removeTodo_first_match hfresh]

theorem mcp_delete_found (s : St) (pre : List Todo) (t : Todo) (post : List Todo)
    (hdb : s.todos_db = pre ++ t :: post) (hfresh : ∀ x ∈ pre, x.id ≠ t.id) :
    mcp_delete_todo s t.id =
      (.ok ("Todo '" ++ t.title ++ "' deleted successfully"),
       { s with todos_db := pre ++ post }) := by
  unfold mcp_delete_todo
  rw [hdb, removeTodo_first_match hfresh]

theorem rest_delete_not_found (s : St) (i : Int)
    (h : ∀ x ∈ s.todos_db, x.id ≠ i) : rest_delete_todo s i = (none, s) := by
  unfold rest_delete_todo
  rw [removeTodo_eq_none h]

theorem mcp_delete_not_found (s : St) (i : Int)
    (h : ∀ x ∈ s.todos_db, x.id ≠ i) :
    mcp_delete_todo s i = (.error ("Todo with ID " ++ toString i ++ " not found"), s) := by
  unfold mcp_delete_todo
  rw [removeTodo_eq_none h]

/-- C6: updating an existing task with only `completed = true` (on either
surface) keeps `id`, `title`, `description` and `created_at`, sets
`completed`, keeps the record at its position and every other record
untouched; updating with no field supplied returns the task unchanged and
leaves the whole state equal to what it was. -/
theorem C6_update_frame (pre : List Todo) (t : Todo) (post : List Todo)
    (s : St) (hdb : s.todos_db = pre ++ t :: post)
    (hfresh : ∀ x ∈ pre, x.id ≠ t.id) :
    (rest_update_todo s t.id { title := none, description := none, completed := some true } =
      (some { t with completed := true },
       { s with todos_db := pre ++ { t with completed := true } :: post })) ∧
    (rest_update_todo s t.id { title := none, description := none, completed := none } =
      (some t, s)) ∧
    (mcp_update_todo s t.id none none (some true) =
      (.ok { t with completed := true },
       { s with todos_db := pre ++ { t with completed := true } :: post })) ∧
    (mcp_update_todo s t.id none none none = (.ok t, s)) := by
  refine ⟨?_, ?_, ?_, ?_⟩
  · exact rest_update_found s pre t post
      { title := none, description := none, completed := some true } hdb hfresh
  · have h := rest_update_found s pre t post
      { title := none, description := none, completed := none } hdb hfresh
    rw [applyUpdate_empty] at h
    rw [h, ← hdb]
  · exact mcp_update_found s pre t post none none (some true) hdb hfresh
  · have h := mcp_update_found s pre t post none none none hdb hfresh
    rw [show applyUpdate t ⟨none, Option.map some none, none⟩ = t from rfl] at h
    rw [h, ← hdb]

/-- Witness for C6 at a concrete input: setting only `completed` on task 1
of a two-task store updates that record in place and nothing else. -/
theorem C6_update_frame_witness :
    rest_update_todo
        ⟨[⟨1, "a", some "x", false, 0⟩, ⟨2, "b", none, false, 1⟩], 3, 1, 2⟩ 1
        { title := none, description := none, completed := some true } =
      (some ⟨1, "a", some "x", true, 0⟩,
       ⟨[⟨1, "a", some "x", true, 0⟩, ⟨2, "b", none, false, 1⟩], 3, 1, 2⟩) :=
  (C6_update_frame [] ⟨1, "a", some "x", false, 0⟩ [⟨2, "b", none, false, 1⟩]
    ⟨[⟨1, "a", some "x", false, 0⟩, ⟨2, "b", none, false, 1⟩], 3, 1, 2⟩
    rfl (by simp)).1

/-- C9: when no record carries the requested id, the failing get, update
and delete of both surfaces answer their not-found error and leave the
state — records, order and both counters — exactly as it was. -/
theorem C9_not_found_preserves_state (s : St) (i : Int) (u : TodoUpdate)
    (title descr : Option String) (compl : Option Bool)
    (h : ∀ x ∈ s.todos_db, x.id ≠ i) :
    rest_get_todo s i = none ∧
    rest_update_todo s i u = (none, s) ∧
    rest_delete_todo s i = (none, s) ∧
    mcp_get_todo s i = .error ("Todo with ID " ++ toString i ++ " not found") ∧
    mcp_update_todo s i title descr compl =
      (.error ("Todo with ID " ++ toString i ++ " not found"), s) ∧
    mcp_delete_todo s i = (.error ("Todo with ID " ++ toString i ++ " not found"), s) := by
  refine ⟨findTodo_eq_none h, ?_, rest_delete_not_found s i h, ?_, ?_,
    mcp_delete_not_found s i h⟩
  · unfold rest_update_todo
    rw [replaceTodo_eq_none u h]
  · unfold mcp_get_todo
    rw [findTodo_eq_none h]
  · unfold mcp_update_todo
    rw [replaceTodo_eq_none
      { title := title, description := descr.map some, completed := compl } h]

/-- Witness for C9 at a concrete input: id 5 is absent from a one-task
store, and the failing delete returns the state unchanged. -/
theorem C9_not_found_preserves_state_witness :
    rest_delete_todo ⟨[⟨1, "a", none, false, 0⟩], 2, 2, 1⟩ 5 =
      (none, ⟨[⟨1, "a", none, false, 0⟩], 2, 2, 1⟩) :=
  (C9_not_found_preserves_state ⟨[⟨1, "a", none, false, 0⟩], 2, 2, 1⟩ 5
    ⟨none, none, none⟩ none none none (by decide)).2.2.1

/-- C2 (amended): on the REST surface the resulting record equals the
prior one except exactly on the fields present in the request — absent
fields keep their values, a present field overwrites with its value, and
an explicitly supplied `description = null` is honoured as setting the
description to `null`.  On the tool surface the parameter defaults are
`None`, so a supplied `null` is indistinguishable from an absent field:
the built update dict is `⟨title, descr.map some, compl⟩` and a
`None`-bound description never overwrites. -/
theorem C2_update_field_semantics (s : St) (pre : List Todo) (t : Todo)
    (post : List Todo) (u : TodoUpdate) (title descr : Option String)
    (compl : Option Bool) (hdb : s.todos_db = pre ++ t :: post)
    (hfresh : ∀ x ∈ pre, x.id ≠ t.id) :
    (rest_update_todo s t.id u =
      (some (applyUpdate t u), { s with todos_db := pre ++ applyUpdate t u :: post })) ∧
    ((applyUpdate t u).id = t.id ∧ (applyUpdate t u).created_at = t.created_at) ∧
    (u.title = none → (applyUpdate t u).title = t.title) ∧
    (∀ v, u.title = some v → (applyUpdate t u).title = v) ∧
    (u.description = none → (applyUpdate t u).description = t.description) ∧
    (∀ v, u.description = some v → (applyUpdate t u).description = v) ∧
    (u.completed = none → (applyUpdate t u).completed = t.completed) ∧
    (∀ v, u.completed = some v → (applyUpdate t u).completed = v) ∧
    (mcp_update_todo s t.id title descr compl =
      (.ok (applyUpdate t ⟨title, descr.map some, compl⟩),
       { s with todos_db := pre ++ applyUpdate t ⟨title, descr.map some, compl⟩ :: post })) ∧
    (descr = none →
      (applyUpdate t ⟨title, descr.map some, compl⟩).description = t.description) := by
  refine ⟨rest_update_found s pre t post u hdb hfresh, ⟨rfl, rfl⟩, ?_, ?_, ?_, ?_, ?_, ?_,
    mcp_update_found s pre t post title descr compl hdb hfresh, ?_⟩
  · intro h
    simp [applyUpdate, h]
  · intro v h
    simp [applyUpdate, h]
  · intro h
    simp [applyUpdate, h]
  · intro v h
    simp [applyUpdate, h]
  · intro h
    simp [applyUpdate, h]
  · intro v h
    simp [applyUpdate, h]
  · intro h
    simp [applyUpdate, h]

/-- C2 counterexample: the claim as stated also asserts the `null`/absent
distinction on the tool surface.  Invoking the registered tool
`update_todo` with arguments `{id: 1, description: null}` — description
actually provided, and provided as `null` — on a store whose task 1 has
description `"x"` leaves the description `"x"` instead of setting it to
`null`. -/
theorem C2_mcp_null_treated_as_absent :
    (call_tool mcp_tools "update_todo" [("id", .int 1), ("description", .null)]
        ⟨[⟨1, "a", some "x", false, 0⟩], 2, 2, 1⟩).2.todos_db =
      [⟨1, "a", some "x", false, 0⟩] ∧
    (⟨1, "a", some "x", false, 0⟩ : Todo).description ≠ none := by
  exact ⟨rfl, by decide⟩

/-- Witness for C2 (amended) at a concrete input: a REST update that
explicitly supplies `description = null` does set the stored description
to `null`. -/
theorem C2_update_field_semantics_witness :
    (rest_update_todo ⟨[⟨1, "a", some "x", false, 0⟩], 2, 2, 1⟩ 1
        ⟨none, some none, none⟩).1 = some ⟨1, "a", none, false, 0⟩ := by
  have h := (C2_update_field_semantics ⟨[⟨1, "a", some "x", false, 0⟩], 2, 2, 1⟩
    [] ⟨1, "a", some "x", false, 0⟩ [] ⟨none, some none, none⟩ none none none
    rfl (by simp)).1
  exact (congrArg Prod.fst h).trans rfl

/-- C7 (amended): creating a task and immediately fetching it by the
returned id — with create and get taken from either surface — returns the
created record, provided no record already in the store carries the id
the create is about to assign (its surface's counter value).  Every state
reachable through a single surface satisfies that proviso; cross-surface
histories can violate it because the two surfaces advance separate
counters. -/
theorem C7_create_then_get (s : St) (tc : TodoCreate) (title : String)
    (descr : Option String) :
    ((∀ x ∈ s.todos_db, x.id ≠ s.routes_next_id) →
      (rest_get_todo (rest_create_todo s tc).2 (rest_create_todo s tc).1.id =
        some (rest_create_todo s tc).1) ∧
      (mcp_get_todo (rest_create_todo s tc).2 (rest_create_todo s tc).1.id =
        .ok (rest_create_todo s tc).1)) ∧
    ((∀ x ∈ s.todos_db, x.id ≠ s.main_next_id) →
      (rest_get_todo (mcp_create_todo s title descr).2 (mcp_create_todo s title descr).1.id =
        some (mcp_create_todo s title descr).1) ∧
      (mcp_get_todo (mcp_create_todo s title descr).2 (mcp_create_todo s title descr).1.id =
        .ok (mcp_create_todo s title descr).1)) := by
  constructor
  · intro hr
    have hr2 : ∀ x ∈ s.todos_db, x.id ≠ (rest_create_todo s tc).1.id := hr
    have hfr := @findTodo_first_match s.todos_db (rest_create_todo s tc).1 [] hr2
    have e1 : (rest_create_todo s tc).2.todos_db =
        s.todos_db ++ (rest_create_todo s tc).1 :: [] := rfl
    constructor
    · unfold rest_get_todo
      rw [e1, hfr]
    · unfold mcp_get_todo
      rw [e1, hfr]
  · intro hm
    have hm2 : ∀ x ∈ s.todos_db, x.id ≠ (mcp_create_todo s title descr).1.id := hm
    have hfm := @findTodo_first_match s.todos_db (mcp_create_todo s title descr).1 [] hm2
    have e2 : (mcp_create_todo s title descr).2.todos_db =
        s.todos_db ++ (mcp_create_todo s title descr).1 :: [] := rfl
    constructor
    · unfold rest_get_todo
      rw [e2, hfm]
    · unfold mcp_get_todo
      rw [e2, hfm]

/-- C7 counterexample: in the state reached by a REST create followed by a
tool create — a sequence of valid creates — fetching the task the tool
create returned by its returned id yields the earlier REST-created task
(`"buy milk"`), not the created one (`"buy eggs"`), because both got id 1
from their separate counters. -/
theorem C7_cross_surface_get_mismatch :
    rest_get_todo dupSt
        (mcp_create_todo (rest_create_todo initSt ⟨"buy milk", none⟩).2 "buy eggs" none).1.id ≠
      some (mcp_create_todo (rest_create_todo initSt ⟨"buy milk", none⟩).2 "buy eggs" none).1 := by
  decide

/-- Witness for C7 (amended) at a concrete input: in the nonempty state a
single REST create leaves (task 1 `"buy milk"`, `routes_next_id = 2`,
`main_next_id` still 1), a second REST create-then-get returns the created
record — only the creating surface's counter must be fresh; the other
counter already collides with id 1 here. -/
theorem C7_create_then_get_witness :
    rest_get_todo
        (rest_create_todo ⟨[⟨1, "buy milk", none, false, 0⟩], 2, 1, 1⟩ ⟨"buy eggs", none⟩).2
        (rest_create_todo ⟨[⟨1, "buy milk", none, false, 0⟩], 2, 1, 1⟩ ⟨"buy eggs", none⟩).1.id =
      some (rest_create_todo ⟨[⟨1, "buy milk", none, false, 0⟩], 2, 1, 1⟩ ⟨"buy eggs", none⟩).1 :=
  ((C7_create_then_get ⟨[⟨1, "buy milk", none, false, 0⟩], 2, 1, 1⟩ ⟨"buy eggs", none⟩
    "unused" none).1 (by decide)).1

/-- C8 (amended): on either surface, delete answers NotFound exactly when
no record carries the id, and otherwise removes the first matching record
and returns the confirmation message naming the deleted title; deleting
the same id twice gives first a confirmation and then NotFound provided
the id occurred at most once — a condition every single-surface history
guarantees, but which the cross-surface duplicate-id states violate. -/
theorem C8_delete_contract (s : St) (i : Int) :
    ((∀ x ∈ s.todos_db, x.id ≠ i) →
      rest_delete_todo s i = (none, s) ∧
      mcp_delete_todo s i = (.error ("Todo with ID " ++ toString i ++ " not found"), s)) ∧
    (∀ pre t post, s.todos_db = pre ++ t :: post → t.id = i →
      (∀ x ∈ pre, x.id ≠ i) →
      rest_delete_todo s i =
        (some ("Todo '" ++ t.title ++ "' deleted successfully"),
         { s with todos_db := pre ++ post }) ∧
      mcp_delete_todo s i =
        (.ok ("Todo '" ++ t.title ++ "' deleted successfully"),
         { s with todos_db := pre ++ post }) ∧
      ((∀ x ∈ pre ++ post, x.id ≠ i) →
        (rest_delete_todo (rest_delete_todo s i).2 i).1 = none ∧
        (mcp_delete_todo (mcp_delete_todo s i).2 i).1 =
          .error ("Todo with ID " ++ toString i ++ " not found"))) := by
  constructor
  · intro h
    exact ⟨rest_delete_not_found s i h, mcp_delete_not_found s i h⟩
  · intro pre t post hdb hid hfresh
    subst hid
    have e1 := rest_delete_found s pre t post hdb hfresh
    have e2 := mcp_delete_found s pre t post hdb hfresh
    refine ⟨e1, e2, ?_⟩
    intro habs
    constructor
    · rw [e1]
      show (rest_delete_todo { s with todos_db := pre ++ post } t.id).1 = none
      rw [rest_delete_not_found { s with todos_db := pre ++ post } t.id habs]
    · rw [e2]
      show (mcp_delete_todo { s with todos_db := pre ++ post } t.id).1 =
        .error ("Todo with ID " ++ toString t.id ++ " not found")
      rw [mcp_delete_not_found { s with todos_db := pre ++ post } t.id habs]

/-- C8 counterexample: `dupSt` holds two records with id 1 (`"buy milk"`
then `"buy eggs"`), a state the two creates of the spec's own end-to-end
example produce; deleting id 1 twice succeeds both times — the second
delete returns a confirmation for `"buy eggs"` instead of NotFound. -/
theorem C8_duplicate_id_double_delete :
    (rest_delete_todo dupSt 1).1 = some "Todo 'buy milk' deleted successfully" ∧
    (rest_delete_todo (rest_delete_todo dupSt 1).2 1).1 =
      some "Todo 'buy eggs' deleted successfully" := by
  exact ⟨rfl, rfl⟩

/-- Witness for C8 (amended) at a concrete input: on a one-task store,
the first delete confirms with the task's title and the second answers
NotFound. -/
theorem C8_delete_contract_witness :
    rest_delete_todo ⟨[⟨1, "buy milk", none, false, 0⟩], 2, 2, 1⟩ 1 =
      (some "Todo 'buy milk' deleted successfully", ⟨[], 2, 2, 1⟩) ∧
    (rest_delete_todo
      (rest_delete_todo ⟨[⟨1, "buy milk", none, false, 0⟩], 2, 2, 1⟩ 1).2 1).1 = none := by
  have h := (C8_delete_contract ⟨[⟨1, "buy milk", none, false, 0⟩], 2, 2, 1⟩ 1).2
    [] ⟨1, "buy milk", none, false, 0⟩ [] rfl rfl (by simp)
  exact ⟨h.1, (h.2.2 (by simp)).1⟩

/-- C10: invoking a registered tool with an argument bag the signature
rejects — an unknown argument name or a missing required argument — is
reported through the dispatcher's catch-all as a 500 InvocationError
carrying the binding error's own message, and never as a 404 NotFound. -/
theorem C10_arg_mismatch_is_500 (name fname : String) (sig : List Param)
    (body : List (String × Val) → St → Except String (Val × St))
    (args : List (String × Val)) (s : St) (e : String)
    (hlook : lookupTool mcp_tools name = some (mkTool fname sig body))
    (hbind : bindArgs fname sig args = .error e) :
    call_tool mcp_tools name args s = (.invocationError e, s) ∧
    ∀ d, (call_tool mcp_tools name args s).1 ≠ .notFound d := by
  have hop : mkTool fname sig body args s = .error e := by
    unfold mkTool
    rw [hbind]
    rfl
  have hcall : call_tool mcp_tools name args s = (.invocationError e, s) := by
    have hred : call_tool mcp_tools name args s =
        match mkTool fname sig body args s with
        | .error msg => (.invocationError msg, s)
        | .ok (v, s2) => (.ok v, s2) := by
      unfold call_tool
      rw [hlook]
    rw [hred, hop]
  refine ⟨hcall, ?_⟩
  intro d hd
  rw [hcall] at hd
  simp at hd

/-- Witness for C10 at a concrete input: calling `get_todo` with the
unknown argument `bogus` yields the 500 with the spread error's message. -/
theorem C10_arg_mismatch_is_500_witness :
    call_tool mcp_tools "get_todo" [("bogus", .int 1)] initSt =
      (.invocationError "get_todo() got an unexpected keyword argument 'bogus'", initSt) :=
  (C10_arg_mismatch_is_500 "get_todo" "get_todo" get_todo_sig get_todo_body
    [("bogus", .int 1)] initSt "get_todo() got an unexpected keyword argument 'bogus'"
    rfl rfl).1
